import Mathlib

/-!
Verification development for the Metrics Aggregation & Historical Blending
Engine of the dashboard backend.

Conventions used throughout this embedding:

* Dates are whole days (ℤ) counted from 2024-10-01 UTC (the configured
  minimum analysis floor date, `min_date` in `base.py`).  Every date literal
  appearing in the sources is a UTC midnight, so day granularity is exact.
  Useful day numbers: 2024-11-01 = 31, 2024-12-01 = 61, 2025-01-20 = 111
  (`opensearch_start`), 2025-01-26 = 117 (`historical_end`),
  2025-02-10 = 132.
* Python float arithmetic is modelled by exact rational arithmetic (ℚ);
  `int(x)` is truncation toward zero and `round(x, 2)` is round-half-to-even
  at two decimal places, Python's documented rounding mode.
* External collaborators (the event store, the user directory, the Redis
  transport) are modelled as oracles: their answers are taken as parameters
  of the embedded functions.
-/

set_option autoImplicit false

namespace Dashboard

/-- Python `int(x)` applied to a real quantity: truncation toward zero. -/
def intTrunc (q : ℚ) : ℤ := if 0 ≤ q then ⌊q⌋ else ⌈q⌉

/-- Python `round(x)` at integer precision: round-half-to-even. -/
def roundHalfEven (q : ℚ) : ℤ :=
  if q - ⌊q⌋ < 1 / 2 then ⌊q⌋
  else if 1 / 2 < q - ⌊q⌋ then ⌊q⌋ + 1
  else if ⌊q⌋ % 2 = 0 then ⌊q⌋ else ⌊q⌋ + 1

/-- Python `round(x, 2)`: round-half-to-even at two decimal places. -/
def round2 (q : ℚ) : ℚ := (roundHalfEven (q * 100) : ℚ) / 100

theorem roundHalfEven_intCast (n : ℤ) : roundHalfEven (n : ℚ) = n := by
  rw [roundHalfEven, Int.floor_intCast]
  norm_num

theorem roundHalfEven_neg (q : ℚ) : roundHalfEven (-q) = -roundHalfEven q := by
  have h0 : (⌊q⌋ : ℚ) ≤ q := Int.floor_le q
  have h1 : q < ⌊q⌋ + 1 := Int.lt_floor_add_one q
  by_cases hz : q = (⌊q⌋ : ℚ)
  · obtain ⟨n, hn⟩ : ∃ n : ℤ, q = (n : ℚ) := ⟨⌊q⌋, hz⟩
    subst hn
    rw [show -((n : ℤ) : ℚ) = ((-n : ℤ) : ℚ) by push_cast ; ring,
      roundHalfEven_intCast, roundHalfEven_intCast]
  · have hlt : (⌊q⌋ : ℚ) < q := lt_of_le_of_ne h0 (fun h => hz h.symm)
    have hneg : ⌊-q⌋ = -⌊q⌋ - 1 := by
      rw [Int.floor_eq_iff]
      constructor
      · push_cast
        linarith
      · push_cast
        linarith
    rw [roundHalfEven, roundHalfEven, hneg]
    push_cast
    set n : ℤ := ⌊q⌋ with hn
    clear_value n
    rcases lt_trichotomy (q - (n : ℚ)) (1 / 2) with h | h | h
    · rw [if_neg (by linarith), if_pos (by linarith), if_pos h]
      omega
    · by_cases he : n % 2 = 0
      · rw [if_neg (by linarith), if_neg (by linarith), if_neg (by omega),
          if_neg (by linarith), if_neg (by linarith), if_pos he]
        omega
      · rw [if_neg (by linarith), if_neg (by linarith), if_pos (by omega),
          if_neg (by linarith), if_neg (by linarith), if_neg he]
        omega
    · rw [if_pos (by linarith), if_neg (by linarith), if_pos h]
      omega

theorem round2_neg (q : ℚ) : round2 (-q) = -round2 q := by
  rw [round2, round2, show -q * 100 = -(q * 100) by ring, roundHalfEven_neg]
  push_cast
  ring

/-! ### Delta / metric-object helpers

Two co-existing implementations are embedded: the one in
`services/analytics/metrics/utils.py` and the one in
`services/analytics/metrics/base_metrics.py`.
-/

/-- Trend/metric payload produced by `utils.calculate_delta`. -/
structure DeltaResult where
  value : ℤ
  previousValue : ℤ
  trend : String
  changePercentage : ℚ
  daily_average : ℚ
deriving DecidableEq

/-- From `utils.py` `calculate_delta` (lines 16-26): trend from the sign of
`curr - prev`; percentage `delta/prev*100` when `prev > 0`, else `100` when
the delta is positive and `0` otherwise; rounded to two decimals. -/
def calculate_delta (curr_value prev_value : ℤ) (daily_average : ℚ) : DeltaResult :=
  let delta := curr_value - prev_value
  { value := curr_value
    previousValue := prev_value
    trend := if delta > 0 then "up" else if delta < 0 then "down" else "neutral"
    changePercentage :=
      round2 (if prev_value > 0 then (delta : ℚ) / (prev_value : ℚ) * 100
              else if delta > 0 then 100 else 0)
    daily_average := daily_average }

/-- The dict argument accepted by `utils.create_metric_object`: `value` is
required, the remaining keys are read with `.get` defaults. -/
structure CurrentValue where
  value : ℤ
  previousValue : Option ℤ
  days_in_range : Option ℤ
  daily_average : Option ℚ

/-- Fully assembled metric object (the shape built by
`utils.create_metric_object`). -/
structure MetricObject where
  id : String
  name : String
  description : String
  category : String
  interval : String
  value : ℤ
  previousValue : ℤ
  trend : String
  changePercentage : ℚ
  daily_average : ℚ
deriving DecidableEq

/-- From `utils.py` `create_metric_object` (lines 28-81), dict input case:
total = value + v1; previous/days/daily-average via `.get` defaults; trend
"up"/"down"/"stable" with a *positive* percentage on decrease. -/
def utils_create_metric_object (metric_id nm descr category : String)
    (current_value : CurrentValue) (v1_value : ℤ) : MetricObject :=
  let total_value := current_value.value + v1_value
  let previous_value := current_value.previousValue.getD 0
  let days_in_range := current_value.days_in_range.getD 1
  let daily_average := current_value.daily_average.getD
    (if days_in_range > 0 then (total_value : ℚ) / (days_in_range : ℚ) else 0)
  let trend_change : String × ℚ :=
    if total_value > previous_value then
      ("up", if previous_value > 0
             then ((total_value - previous_value : ℤ) : ℚ) / (previous_value : ℚ) * 100
             else 100)
    else if total_value < previous_value then
      ("down", if previous_value > 0
               then ((previous_value - total_value : ℤ) : ℚ) / (previous_value : ℚ) * 100
               else 100)
    else ("stable", 0)
  { id := metric_id
    name := nm
    description := descr
    category := category
    interval := "daily"
    value := total_value
    previousValue := previous_value
    trend := trend_change.1
    changePercentage := round2 trend_change.2
    daily_average := daily_average }

/-- Data payload produced by `base_metrics.create_metric_object`. -/
structure BMetric where
  value : ℚ
  previousValue : ℚ
  trend : String
  changePercentage : ℚ
  daily_average : ℚ
deriving DecidableEq

/-- From `base_metrics.py` `calculate_delta` (lines 10-14): percentage change
with the `previous == 0` convention. -/
def bm_calculate_delta (current previous : ℚ) : ℚ :=
  if previous = 0 then (if current > 0 then 100 else 0)
  else (current - previous) / previous * 100

/-- From `base_metrics.py` `create_metric_object` (lines 16-26): trend from
the sign of the (signed) percentage delta, rounded to two decimals. -/
def bm_create_metric_object (value previous_value daily_average : ℚ) : BMetric :=
  let delta := bm_calculate_delta value previous_value
  { value := value
    previousValue := previous_value
    trend := if delta > 0 then "up" else if delta < 0 then "down" else "neutral"
    changePercentage := round2 delta
    daily_average := daily_average }

theorem round2_zero : round2 0 = 0 := by
  norm_num [round2, roundHalfEven]

theorem round2_one_hundred : round2 100 = 100 := by
  norm_num [round2, roundHalfEven]

/-- Evaluation lemma: the trend and percentage fields produced by
`utils.create_metric_object` on a `{value, previousValue}` dict with no
v1 contribution. -/
theorem utils_cmo_fields (v p : ℤ) :
    (utils_create_metric_object "m" "n" "d" "c" ⟨v, some p, none, none⟩ 0).trend
      = (if p < v then "up" else if v < p then "down" else "stable") ∧
    (utils_create_metric_object "m" "n" "d" "c" ⟨v, some p, none, none⟩ 0).changePercentage
      = round2 (if p < v then (if 0 < p then ((v : ℚ) - (p : ℚ)) / (p : ℚ) * 100 else 100)
                else if v < p then (if 0 < p then ((p : ℚ) - (v : ℚ)) / (p : ℚ) * 100 else 100)
                else 0) := by
  simp only [utils_create_metric_object, Option.getD, add_zero]
  constructor
  · split_ifs with h1 h2 <;> simp_all <;> omega
  · split_ifs with h1 h2 h3 h4 h5 h6 <;> first
      | rfl
      | (congr 1 ; push_cast ; ring)
      | omega

/-- Evaluation lemma: the trend field produced by
`base_metrics.create_metric_object`. -/
theorem bm_cmo_trend (v p da : ℚ) :
    (bm_create_metric_object v p da).trend
      = (if bm_calculate_delta v p > 0 then "up"
         else if bm_calculate_delta v p < 0 then "down" else "neutral") := rfl

/-- Claim C2 counterexample: the spec says every computed metric carries a
trend in {up, down, neutral} and changePercentage equal to
(value − previousValue)/previousValue × 100.  The `utils.py`
`create_metric_object` labels an unchanged metric "stable", and
`calculate_delta` rounds the percentage to two decimals, so neither part
holds as stated: at (value 5, previousValue 5) the trend is "stable", and at
(value 1, previousValue 3) the stored percentage is −66.67 ≠ −200/3. -/
theorem c2_counterexample :
    (utils_create_metric_object "m" "n" "d" "c" ⟨5, some 5, none, none⟩ 0).trend = "stable" ∧
    ¬((utils_create_metric_object "m" "n" "d" "c" ⟨5, some 5, none, none⟩ 0).trend = "up" ∨
      (utils_create_metric_object "m" "n" "d" "c" ⟨5, some 5, none, none⟩ 0).trend = "down" ∨
      (utils_create_metric_object "m" "n" "d" "c" ⟨5, some 5, none, none⟩ 0).trend = "neutral") ∧
    (calculate_delta 1 3 0).changePercentage = -6667 / 100 ∧
    (calculate_delta 1 3 0).changePercentage ≠ ((1 : ℚ) - 3) / 3 * 100 := by
  have h := (utils_cmo_fields 5 5).1
  norm_num at h
  refine ⟨h, by simp [h], ?_, ?_⟩
  · norm_num [calculate_delta, round2, roundHalfEven]
  · norm_num [calculate_delta, round2, roundHalfEven]

/-- Claim C2 (amended): for nonnegative inputs, `utils.calculate_delta`
yields a trend in {up, down, neutral} and a changePercentage equal to the
spec formula (value − previousValue)/previousValue × 100 rounded to two
decimal places, with the previousValue = 0 convention (100 when the value
is positive, 0 when the value is 0); in particular (0, 0) ↦ (0, neutral)
and (10, 0) ↦ (100, up).  `utils.create_metric_object`, by contrast, labels
the unchanged case "stable" and reports the magnitude (not the signed
value) of the percentage on decrease. -/
theorem c2_calculate_delta_spec (v p : ℤ) (da : ℚ) (hv : 0 ≤ v) (hp : 0 ≤ p) :
    ((calculate_delta v p da).trend = "up" ∨ (calculate_delta v p da).trend = "down" ∨
        (calculate_delta v p da).trend = "neutral") ∧
    (calculate_delta v p da).value = v ∧
    (calculate_delta v p da).previousValue = p ∧
    (0 < p →
      (calculate_delta v p da).changePercentage
        = round2 (((v : ℚ) - (p : ℚ)) / (p : ℚ) * 100)) ∧
    (p = 0 → 0 < v →
      (calculate_delta v p da).changePercentage = 100 ∧
        (calculate_delta v p da).trend = "up") ∧
    (p = 0 → v = 0 →
      (calculate_delta v p da).changePercentage = 0 ∧
        (calculate_delta v p da).trend = "neutral") := by
  refine ⟨?_, rfl, rfl, ?_, ?_, ?_⟩
  · simp only [calculate_delta]
    split_ifs <;> simp
  · intro hp0
    simp only [calculate_delta, if_pos hp0]
    congr 1
    push_cast
    ring
  · intro hp0 hv0
    subst hp0
    simp only [calculate_delta]
    rw [if_neg (by omega), if_pos (by omega), if_pos (by omega)]
    exact ⟨round2_one_hundred, rfl⟩
  · intro hp0 hv0
    subst hp0
    subst hv0
    simp only [calculate_delta]
    norm_num [round2_zero]

theorem c2_calculate_delta_spec_witness :
    (calculate_delta 10 0 0).changePercentage = 100 ∧
      (calculate_delta 10 0 0).trend = "up" :=
  (c2_calculate_delta_spec 10 0 0 (by norm_num) (by norm_num)).2.2.2.2.1 rfl (by norm_num)

/-- Claim C10 counterexample: the two co-existing helper implementations are
not equivalent.  At (value 5, previousValue 10) `utils.create_metric_object`
stores changePercentage +50 while `base_metrics.create_metric_object` stores
−50; at (value 5, previousValue 5) the former labels the trend "stable"
while the latter labels it "neutral". -/
theorem c10_counterexample :
    (utils_create_metric_object "m" "n" "d" "c" ⟨5, some 10, none, none⟩ 0).changePercentage
        = 50 ∧
    (bm_create_metric_object (5 : ℚ) (10 : ℚ) 0).changePercentage = -50 ∧
    (utils_create_metric_object "m" "n" "d" "c" ⟨5, some 10, none, none⟩ 0).changePercentage
        ≠ (bm_create_metric_object (5 : ℚ) (10 : ℚ) 0).changePercentage ∧
    (utils_create_metric_object "m" "n" "d" "c" ⟨5, some 5, none, none⟩ 0).trend = "stable" ∧
    (bm_create_metric_object (5 : ℚ) (5 : ℚ) 0).trend = "neutral" := by
  have h1 := (utils_cmo_fields 5 10).2
  have h2 := (utils_cmo_fields 5 5).1
  norm_num at h1 h2
  have h1' : (utils_create_metric_object "m" "n" "d" "c" ⟨5, some 10, none, none⟩
      0).changePercentage = 50 := by
    rw [h1]
    norm_num [round2, roundHalfEven]
  have hb : (bm_create_metric_object (5 : ℚ) (10 : ℚ) 0).changePercentage = -50 := by
    simp only [bm_create_metric_object, bm_calculate_delta]
    norm_num [round2, roundHalfEven]
  refine ⟨h1', hb, ?_, h2, ?_⟩
  · rw [h1', hb]
    norm_num
  · rw [bm_cmo_trend]
    norm_num [bm_calculate_delta]

/-- Claim C10 (amended): for nonnegative integer inputs the two helper
implementations agree on both the trend label and the changePercentage
exactly when the value strictly increased; when value = previousValue they
agree on changePercentage 0 but label the trend "stable" (utils) versus
"neutral" (base_metrics); when the value strictly decreased both label the
trend "down" but utils reports the negation (the magnitude) of the signed
percentage reported by base_metrics. -/
theorem bm_cmo_cp (v p da : ℚ) :
    (bm_create_metric_object v p da).changePercentage = round2 (bm_calculate_delta v p) := rfl

theorem bm_delta_pos_of_lt (v p : ℤ) (hp : 0 ≤ p) (hlt : p < v) :
    0 < bm_calculate_delta (v : ℚ) (p : ℚ) := by
  rcases eq_or_lt_of_le hp with hp0 | hp0
  · rw [bm_calculate_delta, if_pos (by exact_mod_cast hp0.symm),
      if_pos (by exact_mod_cast (show (0 : ℤ) < v by omega))]
    norm_num
  · have hpq : (0 : ℚ) < (p : ℚ) := by exact_mod_cast hp0
    rw [bm_calculate_delta, if_neg (ne_of_gt hpq)]
    have hvp : (0 : ℚ) < (v : ℚ) - (p : ℚ) := by
      have h : (p : ℚ) < (v : ℚ) := by exact_mod_cast hlt
      linarith
    have hrw : ((v : ℚ) - (p : ℚ)) / (p : ℚ) * 100
        = ((v : ℚ) - (p : ℚ)) * (100 / (p : ℚ)) := by ring
    rw [hrw]
    exact mul_pos hvp (div_pos (by norm_num) hpq)

theorem bm_delta_neg_of_lt (v p : ℤ) (hv : 0 ≤ v) (hlt : v < p) :
    bm_calculate_delta (v : ℚ) (p : ℚ) < 0 := by
  have hp0 : (0 : ℤ) < p := lt_of_le_of_lt hv hlt
  have hpq : (0 : ℚ) < (p : ℚ) := by exact_mod_cast hp0
  rw [bm_calculate_delta, if_neg (ne_of_gt hpq)]
  have hvp : (v : ℚ) - (p : ℚ) < 0 := by
    have h : (v : ℚ) < (p : ℚ) := by exact_mod_cast hlt
    linarith
  have hrw : ((v : ℚ) - (p : ℚ)) / (p : ℚ) * 100
      = ((v : ℚ) - (p : ℚ)) * (100 / (p : ℚ)) := by ring
  rw [hrw]
  exact mul_neg_of_neg_of_pos hvp (div_pos (by norm_num) hpq)

theorem bm_delta_self (v : ℚ) : bm_calculate_delta v v = 0 := by
  rw [bm_calculate_delta]
  split_ifs with h h2
  · exfalso
    rw [h] at h2
    exact lt_irrefl _ h2
  · rfl
  · simp

theorem c10_metric_helpers_relation (v p : ℤ) (da : ℚ) (hv : 0 ≤ v) (hp : 0 ≤ p) :
    (p < v →
      (utils_create_metric_object "m" "n" "d" "c" ⟨v, some p, none, none⟩ 0).trend
          = (bm_create_metric_object (v : ℚ) (p : ℚ) da).trend ∧
      (utils_create_metric_object "m" "n" "d" "c" ⟨v, some p, none, none⟩ 0).changePercentage
          = (bm_create_metric_object (v : ℚ) (p : ℚ) da).changePercentage) ∧
    (v = p →
      (utils_create_metric_object "m" "n" "d" "c" ⟨v, some p, none, none⟩ 0).trend = "stable" ∧
      (bm_create_metric_object (v : ℚ) (p : ℚ) da).trend = "neutral" ∧
      (utils_create_metric_object "m" "n" "d" "c" ⟨v, some p, none, none⟩ 0).changePercentage
          = 0 ∧
      (bm_create_metric_object (v : ℚ) (p : ℚ) da).changePercentage = 0) ∧
    (v < p →
      (utils_create_metric_object "m" "n" "d" "c" ⟨v, some p, none, none⟩ 0).trend = "down" ∧
      (bm_create_metric_object (v : ℚ) (p : ℚ) da).trend = "down" ∧
      (utils_create_metric_object "m" "n" "d" "c" ⟨v, some p, none, none⟩ 0).changePercentage
          = -(bm_create_metric_object (v : ℚ) (p : ℚ) da).changePercentage) := by
  obtain ⟨ht, hc⟩ := utils_cmo_fields v p
  refine ⟨?_, ?_, ?_⟩
  · intro hlt
    have hd := bm_delta_pos_of_lt v p hp hlt
    constructor
    · rw [ht, if_pos hlt, bm_cmo_trend, if_pos hd]
    · rw [hc, if_pos hlt, bm_cmo_cp]
      rcases eq_or_lt_of_le hp with hp0 | hp0
      · rw [if_neg (by omega)]
        congr 1
        rw [bm_calculate_delta, if_pos (by exact_mod_cast hp0.symm),
          if_pos (by exact_mod_cast (show (0 : ℤ) < v by omega))]
      · rw [if_pos hp0]
        congr 1
        rw [bm_calculate_delta,
          if_neg (ne_of_gt (show (0 : ℚ) < (p : ℚ) by exact_mod_cast hp0))]
  · intro heq
    subst heq
    refine ⟨?_, ?_, ?_, ?_⟩
    · rw [ht]
      simp
    · rw [bm_cmo_trend, bm_delta_self]
      norm_num
    · rw [hc]
      simp [round2_zero]
    · rw [bm_cmo_cp, bm_delta_self, round2_zero]
  · intro hlt
    have hp0 : (0 : ℤ) < p := lt_of_le_of_lt hv hlt
    have hd := bm_delta_neg_of_lt v p hv hlt
    refine ⟨?_, ?_, ?_⟩
    · rw [ht, if_neg (by omega), if_pos hlt]
    · rw [bm_cmo_trend, if_neg (by linarith), if_pos hd]
    · rw [hc, if_neg (by omega), if_pos hlt, if_pos hp0, bm_cmo_cp]
      rw [bm_calculate_delta,
        if_neg (ne_of_gt (show (0 : ℚ) < (p : ℚ) by exact_mod_cast hp0))]
      rw [← round2_neg]
      congr 1
      ring

theorem c10_metric_helpers_relation_witness :
    (utils_create_metric_object "m" "n" "d" "c" ⟨3, some 5, none, none⟩ 0).trend = "down" ∧
    (bm_create_metric_object (3 : ℚ) (5 : ℚ) 0).trend = "down" ∧
    (utils_create_metric_object "m" "n" "d" "c" ⟨3, some 5, none, none⟩ 0).changePercentage
        = -(bm_create_metric_object (3 : ℚ) (5 : ℚ) 0).changePercentage :=
  (c10_metric_helpers_relation 3 5 0 (by norm_num) (by norm_num)).2.2 (by norm_num)

/-! ### Time-window validation (base.py `_validate_dates`)

Dates are whole days counted from 2024-10-01 UTC, so the configured floor
`min_date` is day 0.  The source first clamps the start date up to the
floor and only afterwards swaps the two dates when they arrive reversed.
-/

/-- From `base.py` `_validate_dates` (lines 109-122): clamp `start_date` up
to `min_date` (day 0), then swap if `start_date > end_date`. -/
def validate_dates (start_date end_date : ℤ) : ℤ × ℤ :=
  let s := if start_date < 0 then 0 else start_date
  if s > end_date then (end_date, s) else (s, end_date)

/-- Claim C9 counterexample: for the reversed input window
(2024-09-15, 2024-09-10) — days (−16, −21) — the clamp runs before the
swap, so the validated window is (−21, 0): its start lies 21 days before
the configured floor date, contradicting floorDate ≤ start. -/
theorem c9_counterexample :
    validate_dates (-16) (-21) = (-21, 0) ∧ ¬(0 ≤ (validate_dates (-16) (-21)).1) := by
  constructor
  · norm_num [validate_dates]
  · norm_num [validate_dates]

/-- Claim C9 (amended): the validated window always satisfies start ≤ end
(a reversed input is normalized by swapping), and the start is at or after
the configured floor date whenever the *input end date* is at or after the
floor; when the input end date precedes the floor, the swap can return a
start before the floor. -/
theorem c9_validate_dates_spec (s e : ℤ) :
    (validate_dates s e).1 ≤ (validate_dates s e).2 ∧
    (0 ≤ e → 0 ≤ (validate_dates s e).1) := by
  rw [validate_dates]
  constructor
  · split_ifs <;> simp <;> omega
  · intro he
    split_ifs <;> simp <;> omega

theorem c9_validate_dates_spec_witness :
    (validate_dates 40 10).1 ≤ (validate_dates 40 10).2 ∧
      0 ≤ (validate_dates 40 10).1 :=
  ⟨(c9_validate_dates_spec 40 10).1, (c9_validate_dates_spec 40 10).2 (by norm_num)⟩

/-! ### Activity-tier selectors (Claim C3)

Two aggregation paths build the per-user bucket-selector that classifies
users by qualifying event count:

* `metrics_service.py` goes through `base.py`
  `_build_thread_count_aggregation(min_count, max_count)`, which emits the
  script "params.thread_count >= min && params.thread_count <= max";
* `activity_metrics.py` goes through
  `OpenSearchQueryBuilder.build_thread_count_query(min_count, max_count)`.
-/

/-- From `base.py` `_build_thread_count_aggregation` (lines 151-181): a user
bucket whose event count is `c` survives the emitted bucket-selector script
iff `min_count ≤ c` (when given) and `c ≤ max_count` (when given). -/
def thread_count_selector (min_count max_count : Option ℤ) (c : ℤ) : Bool :=
  (match min_count with
   | some m => decide (m ≤ c)
   | none => true)
  && (match max_count with
      | some m => decide (c ≤ m)
      | none => true)

/-- Modelled from the spec: `OpenSearchQueryBuilder.build_thread_count_query`
(module `src/utils/query_builder.py`) is not among the sources; per §4.1 its
optional bucket-selector expresses "count ≥ min" and/or "count ≤ max",
matching the selector script that `base.py` builds. -/
def build_thread_count_query_selector (min_count max_count : Option ℤ) (c : ℤ) : Bool :=
  thread_count_selector min_count max_count c

/-- `metrics_service.py` `get_medium_chat_users` (line 31): bounds 5 and 20. -/
def metricsService_moderate (c : ℤ) : Bool := thread_count_selector (some 5) (some 20) c

/-- `metrics_service.py` `get_power_users` (line 40): lower bound 21. -/
def metricsService_power (c : ℤ) : Bool := thread_count_selector (some 21) none c

/-- `activity_metrics.py` `get_medium_chat_users` (lines 91-98): bounds 5 and 20. -/
def activityMetrics_moderate (c : ℤ) : Bool :=
  build_thread_count_query_selector (some 5) (some 20) c

/-- `activity_metrics.py` `get_power_users` (lines 122-128): lower bound 20,
although its own docstring promises "users with more than 20 message
threads". -/
def activityMetrics_power (c : ℤ) : Bool :=
  build_thread_count_query_selector (some 20) none c

/-- Claim C3 (code bug): on the `metrics_service` path the thresholds match
the spec — 5 and 20 are moderate, power starts exactly at 21, and the two
tiers are disjoint for every count.  On the `activity_metrics` path the
power query uses `min_count=20`, so a user with exactly 20 events is
classified both moderate and power, contradicting the spec and the
function's own docstring ("more than 20 message threads"). -/
theorem c3_tier_thresholds :
    (∀ c : ℤ, metricsService_moderate c = true ↔ (5 ≤ c ∧ c ≤ 20)) ∧
    (∀ c : ℤ, metricsService_power c = true ↔ 20 < c) ∧
    (∀ c : ℤ, ¬(metricsService_moderate c = true ∧ metricsService_power c = true)) ∧
    metricsService_moderate 5 = true ∧
    metricsService_moderate 20 = true ∧
    metricsService_power 20 = false ∧
    metricsService_power 21 = true ∧
    activityMetrics_moderate 20 = true ∧
    activityMetrics_power 20 = true ∧
    (∀ c : ℤ, activityMetrics_power c = true ↔ 20 ≤ c) := by
  refine ⟨?_, ?_, ?_, by decide, by decide, by decide, by decide, by decide, by decide, ?_⟩
  · intro c
    simp [metricsService_moderate, thread_count_selector]
  · intro c
    simp [metricsService_power, thread_count_selector]
    omega
  · intro c h
    obtain ⟨h1, h2⟩ := h
    simp [metricsService_moderate, metricsService_power, thread_count_selector] at h1 h2
    omega
  · intro c
    simp [activityMetrics_power, build_thread_count_query_selector, thread_count_selector]

theorem c3_tier_thresholds_witness :
    metricsService_power 21 = true ∧ activityMetrics_power 20 = true :=
  ⟨(c3_tier_thresholds.2.1 21).mpr (by norm_num),
   (c3_tier_thresholds.2.2.2.2.2.2.2.2.2 20).mpr (by norm_num)⟩

/-! ### Historical baseline (historical_data.py `HistoricalData`)

`V1_DATA` holds cumulative checkpoints; `_get_value_at_date` interpolates
between the two bracketing checkpoints; `get_v1_metrics` returns the delta
of two interpolated lookups.  Dates are day numbers from 2024-10-01.
-/

/-- One row of `HistoricalData.V1_DATA`: a dated cumulative checkpoint. -/
structure V1Row where
  date : ℤ
  total_users : ℤ
  active_users : ℤ
  producers : ℤ

/-- The three cumulative metrics returned by `_get_value_at_date`. -/
structure V1Values where
  total_users : ℤ
  active_users : ℤ
  producers : ℤ
deriving DecidableEq

/-- From `historical_data.py` `_calculate_daily_growth` (lines 49-52). -/
def calculate_daily_growth (start_value end_value days : ℤ) : ℚ :=
  if days > 0 then ((end_value : ℚ) - (start_value : ℚ)) / (days : ℚ) else 0

/-- The bracket-search loop of `_get_value_at_date` (lines 76-77): the first
consecutive pair `(a, b)` with `a.date ≤ d < b.date`. -/
def findBracket : List V1Row → ℤ → Option (V1Row × V1Row)
  | a :: b :: rest, d =>
    if a.date ≤ d ∧ d < b.date then some (a, b) else findBracket (b :: rest) d
  | _, _ => none

/-- The interpolation step of `_get_value_at_date` (lines 78-113): per-day
growth rates between the bracketing checkpoints, `int()`-truncated values at
the target date. -/
def interpolate (a b : V1Row) (d : ℤ) : V1Values :=
  let days_between := b.date - a.date
  let days_from_start := d - a.date
  { total_users := intTrunc ((a.total_users : ℚ)
      + calculate_daily_growth a.total_users b.total_users days_between
        * (days_from_start : ℚ))
    active_users := intTrunc ((a.active_users : ℚ)
      + calculate_daily_growth a.active_users b.active_users days_between
        * (days_from_start : ℚ))
    producers := intTrunc ((a.producers : ℚ)
      + calculate_daily_growth a.producers b.producers days_between
        * (days_from_start : ℚ)) }

/-- The last checkpoint of the table (`V1_DATA[-1]` in the source). -/
def lastRow : V1Row → List V1Row → V1Row
  | a, [] => a
  | _, b :: rest => lastRow b rest

/-- From `historical_data.py` `_get_value_at_date` (lines 54-124): zero
before the first checkpoint, the last checkpoint's values at or after its
date, interpolation between the bracketing pair otherwise (with the
source's final fallback returning the last checkpoint).  The source
presumes a non-empty table; the empty case is unreachable. -/
def getValueAtDate (data : List V1Row) (d : ℤ) : V1Values :=
  match data with
  | [] => ⟨0, 0, 0⟩
  | first :: rest =>
    let last := lastRow first rest
    if d < first.date then ⟨0, 0, 0⟩
    else if last.date ≤ d then ⟨last.total_users, last.active_users, last.producers⟩
    else
      match findBracket (first :: rest) d with
      | some (a, b) => interpolate a b d
      | none => ⟨last.total_users, last.active_users, last.producers⟩

/-- The checkpoint table hard-coded as `HistoricalData.V1_DATA`:
(2024-10-01, 2024-11-01, 2024-12-01, 2025-01-26) are day numbers
0, 31, 61, 117. -/
def V1_DATA : List V1Row :=
  [⟨0, 9770, 1213, 1220⟩, ⟨31, 18634, 4231, 4320⟩,
   ⟨61, 27058, 9863, 9830⟩, ⟨117, 48850, 16560, 16800⟩]

/-- The checkpoint table of the claim's scenario: (2024-10-01, total 0) and
(2024-10-31, total 9770), day numbers 0 and 30. -/
def scenario_checkpoints : List V1Row := [⟨0, 0, 0, 0⟩, ⟨30, 9770, 0, 0⟩]

/-- Result record of `get_v1_metrics`: cumulative deltas over the window and
their daily averages. -/
structure V1Metrics where
  total_users : ℤ
  active_users : ℤ
  producers : ℤ
  daily_total_users : ℚ
  daily_active_users : ℚ
  daily_producers : ℚ
deriving DecidableEq

/-- From `historical_data.py` `get_v1_metrics` (lines 126-165): the period
contribution `valueAt(end) − valueAt(start − 1 day)` per metric, with daily
averages over `(end − start).days + 1`. -/
def get_v1_metrics (data : List V1Row) (start_date end_date : ℤ)
    (include_v1 : Bool) : V1Metrics :=
  if ¬include_v1 then ⟨0, 0, 0, 0, 0, 0⟩
  else
    let end_data := getValueAtDate data end_date
    let start_data := getValueAtDate data (start_date - 1)
    let total_users := end_data.total_users - start_data.total_users
    let active_users := end_data.active_users - start_data.active_users
    let producers := end_data.producers - start_data.producers
    let days_in_range := end_date - start_date + 1
    { total_users := total_users
      active_users := active_users
      producers := producers
      daily_total_users :=
        if days_in_range > 0 then (total_users : ℚ) / (days_in_range : ℚ) else 0
      daily_active_users :=
        if days_in_range > 0 then (active_users : ℚ) / (days_in_range : ℚ) else 0
      daily_producers :=
        if days_in_range > 0 then (producers : ℚ) / (days_in_range : ℚ) else 0 }

theorem gvad_before (d : ℤ) (h : d < 0) : getValueAtDate V1_DATA d = ⟨0, 0, 0⟩ := by
  simp only [getValueAtDate, V1_DATA]
  dsimp only [lastRow]
  rw [if_pos h]

theorem gvad_after (d : ℤ) (h : 117 ≤ d) :
    getValueAtDate V1_DATA d = ⟨48850, 16560, 16800⟩ := by
  simp only [getValueAtDate, V1_DATA]
  dsimp only [lastRow]
  rw [if_neg (by omega), if_pos (by omega)]

theorem cdg_eval (s e dys : ℤ) (h : 0 < dys) :
    calculate_daily_growth s e dys = ((e : ℚ) - (s : ℚ)) / (dys : ℚ) := by
  rw [calculate_daily_growth, if_pos h]

theorem gvad_seg1 (d : ℤ) (h0 : 0 ≤ d) (h1 : d < 31) :
    getValueAtDate V1_DATA d
      = ⟨intTrunc (9770 + 8864 / 31 * (d : ℚ)),
         intTrunc (1213 + 3018 / 31 * (d : ℚ)),
         intTrunc (1220 + 3100 / 31 * (d : ℚ))⟩ := by
  have hg : ∀ s e : ℤ, calculate_daily_growth s e 31 = ((e : ℚ) - (s : ℚ)) / 31 :=
    fun s e => cdg_eval s e 31 (by norm_num)
  simp only [getValueAtDate, V1_DATA, findBracket]
  dsimp only [lastRow]
  rw [if_neg (by omega), if_neg (by omega), if_pos (by constructor <;> omega)]
  dsimp only [interpolate]
  simp only [V1Values.mk.injEq]
  refine ⟨?_, ?_, ?_⟩ <;>
    (congr 1 ; simp only [calculate_daily_growth] ; rw [if_pos (by norm_num)] ;
      push_cast ; ring_nf)

theorem gvad_seg2 (d : ℤ) (h0 : 31 ≤ d) (h1 : d < 61) :
    getValueAtDate V1_DATA d
      = ⟨intTrunc (18634 + 8424 / 30 * ((d : ℚ) - 31)),
         intTrunc (4231 + 5632 / 30 * ((d : ℚ) - 31)),
         intTrunc (4320 + 5510 / 30 * ((d : ℚ) - 31))⟩ := by
  have hg : ∀ s e : ℤ, calculate_daily_growth s e 30 = ((e : ℚ) - (s : ℚ)) / 30 :=
    fun s e => cdg_eval s e 30 (by norm_num)
  simp only [getValueAtDate, V1_DATA, findBracket]
  dsimp only [lastRow]
  rw [if_neg (by omega), if_neg (by omega), if_neg (by omega),
    if_pos (by constructor <;> omega)]
  dsimp only [interpolate]
  simp only [V1Values.mk.injEq]
  refine ⟨?_, ?_, ?_⟩ <;>
    (congr 1 ; simp only [calculate_daily_growth] ; rw [if_pos (by norm_num)] ;
      push_cast ; ring_nf)

theorem gvad_seg3 (d : ℤ) (h0 : 61 ≤ d) (h1 : d < 117) :
    getValueAtDate V1_DATA d
      = ⟨intTrunc (27058 + 21792 / 56 * ((d : ℚ) - 61)),
         intTrunc (9863 + 6697 / 56 * ((d : ℚ) - 61)),
         intTrunc (9830 + 6970 / 56 * ((d : ℚ) - 61))⟩ := by
  have hg : ∀ s e : ℤ, calculate_daily_growth s e 56 = ((e : ℚ) - (s : ℚ)) / 56 :=
    fun s e => cdg_eval s e 56 (by norm_num)
  simp only [getValueAtDate, V1_DATA, findBracket]
  dsimp only [lastRow]
  rw [if_neg (by omega), if_neg (by omega), if_neg (by omega), if_neg (by omega),
    if_pos (by constructor <;> omega)]
  dsimp only [interpolate]
  simp only [V1Values.mk.injEq]
  refine ⟨?_, ?_, ?_⟩ <;>
    (congr 1 ; simp only [calculate_daily_growth] ; rw [if_pos (by norm_num)] ;
      push_cast ; ring_nf)

theorem gvad_scenario : getValueAtDate scenario_checkpoints 15 = ⟨4885, 0, 0⟩ := by
  simp only [getValueAtDate, scenario_checkpoints, findBracket]
  dsimp only [lastRow]
  rw [if_neg (by norm_num), if_neg (by norm_num), if_pos (by norm_num)]
  dsimp only [interpolate]
  norm_num [calculate_daily_growth, intTrunc]

theorem intTrunc_mono (q1 q2 : ℚ) (h0 : 0 ≤ q1) (h : q1 ≤ q2) :
    intTrunc q1 ≤ intTrunc q2 := by
  rw [intTrunc, intTrunc, if_pos h0, if_pos (h0.trans h)]
  exact Int.floor_le_floor h

theorem interp_mono (c g x y : ℚ) (h0 : 0 ≤ c + g * x) (hg : 0 ≤ g) (hxy : x ≤ y) :
    intTrunc (c + g * x) ≤ intTrunc (c + g * y) :=
  intTrunc_mono _ _ h0 (by nlinarith)

theorem gvad_step (d : ℤ) :
    (getValueAtDate V1_DATA d).total_users ≤ (getValueAtDate V1_DATA (d + 1)).total_users ∧
    (getValueAtDate V1_DATA d).active_users ≤ (getValueAtDate V1_DATA (d + 1)).active_users ∧
    (getValueAtDate V1_DATA d).producers ≤ (getValueAtDate V1_DATA (d + 1)).producers := by
  have hcase : d < -1 ∨ d = -1 ∨ (0 ≤ d ∧ d < 30) ∨ d = 30 ∨ (31 ≤ d ∧ d < 60) ∨
      d = 60 ∨ (61 ≤ d ∧ d < 116) ∨ d = 116 ∨ 117 ≤ d := by omega
  rcases hcase with h | h | ⟨ha, hb⟩ | h | ⟨ha, hb⟩ | h | ⟨ha, hb⟩ | h | h
  · rw [gvad_before d (by omega), gvad_before (d + 1) (by omega)]
    norm_num
  · subst h
    rw [gvad_before (-1) (by norm_num), gvad_seg1 (-1 + 1) (by norm_num) (by norm_num)]
    norm_num [intTrunc]
  · rw [gvad_seg1 d (by omega) (by omega), gvad_seg1 (d + 1) (by omega) (by omega)]
    have hdq : (0 : ℚ) ≤ (d : ℚ) := by exact_mod_cast ha
    refine ⟨?_, ?_, ?_⟩ <;>
      exact interp_mono _ _ _ _
        (add_nonneg (by norm_num) (mul_nonneg (by norm_num) (by linarith)))
        (by norm_num) (by push_cast ; linarith)
  · subst h
    rw [gvad_seg1 30 (by norm_num) (by norm_num), gvad_seg2 (30 + 1) (by norm_num) (by norm_num)]
    norm_num [intTrunc]
  · rw [gvad_seg2 d (by omega) (by omega), gvad_seg2 (d + 1) (by omega) (by omega)]
    have hdq : (31 : ℚ) ≤ (d : ℚ) := by exact_mod_cast ha
    refine ⟨?_, ?_, ?_⟩ <;>
      exact interp_mono _ _ _ _
        (add_nonneg (by norm_num) (mul_nonneg (by norm_num) (by linarith)))
        (by norm_num) (by push_cast ; linarith)
  · subst h
    rw [gvad_seg2 60 (by norm_num) (by norm_num), gvad_seg3 (60 + 1) (by norm_num) (by norm_num)]
    norm_num [intTrunc]
  · rw [gvad_seg3 d (by omega) (by omega), gvad_seg3 (d + 1) (by omega) (by omega)]
    have hdq : (61 : ℚ) ≤ (d : ℚ) := by exact_mod_cast ha
    refine ⟨?_, ?_, ?_⟩ <;>
      exact interp_mono _ _ _ _
        (add_nonneg (by norm_num) (mul_nonneg (by norm_num) (by linarith)))
        (by norm_num) (by push_cast ; linarith)
  · subst h
    rw [gvad_seg3 116 (by norm_num) (by norm_num), gvad_after (116 + 1) (by norm_num)]
    norm_num [intTrunc]
  · rw [gvad_after d (by omega), gvad_after (d + 1) (by omega)]
    norm_num

theorem gvad_mono (d1 d2 : ℤ) (h : d1 ≤ d2) :
    (getValueAtDate V1_DATA d1).total_users ≤ (getValueAtDate V1_DATA d2).total_users ∧
    (getValueAtDate V1_DATA d1).active_users ≤ (getValueAtDate V1_DATA d2).active_users ∧
    (getValueAtDate V1_DATA d1).producers ≤ (getValueAtDate V1_DATA d2).producers := by
  refine @Int.le_induction
    (fun n =>
      (getValueAtDate V1_DATA d1).total_users ≤ (getValueAtDate V1_DATA n).total_users ∧
      (getValueAtDate V1_DATA d1).active_users ≤ (getValueAtDate V1_DATA n).active_users ∧
      (getValueAtDate V1_DATA d1).producers ≤ (getValueAtDate V1_DATA n).producers)
    d1 ?_ ?_ d2 h
  · exact ⟨le_refl _, le_refl _, le_refl _⟩
  · intro n hn ih
    exact ⟨ih.1.trans (gvad_step n).1, ih.2.1.trans (gvad_step n).2.1,
      ih.2.2.trans (gvad_step n).2.2⟩

/-- Cumulative fields of `get_v1_metrics`: the period contribution is the
difference of two interpolated lookups, `valueAt(end) − valueAt(start − 1)`. -/
theorem gvm_fields (s e : ℤ) :
    (get_v1_metrics V1_DATA s e true).total_users
        = (getValueAtDate V1_DATA e).total_users
          - (getValueAtDate V1_DATA (s - 1)).total_users ∧
    (get_v1_metrics V1_DATA s e true).active_users
        = (getValueAtDate V1_DATA e).active_users
          - (getValueAtDate V1_DATA (s - 1)).active_users ∧
    (get_v1_metrics V1_DATA s e true).producers
        = (getValueAtDate V1_DATA e).producers
          - (getValueAtDate V1_DATA (s - 1)).producers := by
  simp [get_v1_metrics]

/-- Claim C4: `_get_value_at_date` returns all-zero values for every date
before the first checkpoint, the last checkpoint's values at or after the
last checkpoint date, and otherwise the integer-truncated linear
interpolation between the two bracketing checkpoints proportional to
elapsed whole days; with the scenario checkpoints (2024-10-01, total 0) and
(2024-10-31, total 9770), the value at 2024-10-16 (day 15) is 4885. -/
theorem c4_value_at_date (d : ℤ) :
    (d < 0 → getValueAtDate V1_DATA d = ⟨0, 0, 0⟩) ∧
    (117 ≤ d → getValueAtDate V1_DATA d = ⟨48850, 16560, 16800⟩) ∧
    (0 ≤ d → d < 31 → getValueAtDate V1_DATA d
        = ⟨intTrunc (9770 + 8864 / 31 * (d : ℚ)),
           intTrunc (1213 + 3018 / 31 * (d : ℚ)),
           intTrunc (1220 + 3100 / 31 * (d : ℚ))⟩) ∧
    (31 ≤ d → d < 61 → getValueAtDate V1_DATA d
        = ⟨intTrunc (18634 + 8424 / 30 * ((d : ℚ) - 31)),
           intTrunc (4231 + 5632 / 30 * ((d : ℚ) - 31)),
           intTrunc (4320 + 5510 / 30 * ((d : ℚ) - 31))⟩) ∧
    (61 ≤ d → d < 117 → getValueAtDate V1_DATA d
        = ⟨intTrunc (27058 + 21792 / 56 * ((d : ℚ) - 61)),
           intTrunc (9863 + 6697 / 56 * ((d : ℚ) - 61)),
           intTrunc (9830 + 6970 / 56 * ((d : ℚ) - 61))⟩) ∧
    getValueAtDate scenario_checkpoints 15 = ⟨4885, 0, 0⟩ :=
  ⟨gvad_before d, gvad_after d, gvad_seg1 d, gvad_seg2 d, gvad_seg3 d, gvad_scenario⟩

theorem c4_value_at_date_witness :
    getValueAtDate V1_DATA (-5) = ⟨0, 0, 0⟩ ∧
    getValueAtDate V1_DATA 200 = ⟨48850, 16560, 16800⟩ ∧
    getValueAtDate V1_DATA 15
      = ⟨intTrunc (9770 + 8864 / 31 * (15 : ℚ)),
         intTrunc (1213 + 3018 / 31 * (15 : ℚ)),
         intTrunc (1220 + 3100 / 31 * (15 : ℚ))⟩ :=
  ⟨(c4_value_at_date (-5)).1 (by norm_num),
   (c4_value_at_date 200).2.1 (by norm_num),
   (c4_value_at_date 15).2.2.1 (by norm_num) (by norm_num)⟩

/-- Claim C5: for every window inside the historical era the period
contribution of `get_v1_metrics` equals `valueAt(end) − valueAt(start − 1
day)` for each metric, and with the start held fixed that delta is
monotonically non-decreasing as the end date grows. -/
theorem c5_delta_over (s e e1 e2 : ℤ) (hs : 0 ≤ s) (hse : s ≤ e1)
    (h12 : e1 ≤ e2) (h2 : e2 ≤ 117) :
    ((get_v1_metrics V1_DATA s e true).total_users
        = (getValueAtDate V1_DATA e).total_users
          - (getValueAtDate V1_DATA (s - 1)).total_users ∧
     (get_v1_metrics V1_DATA s e true).active_users
        = (getValueAtDate V1_DATA e).active_users
          - (getValueAtDate V1_DATA (s - 1)).active_users ∧
     (get_v1_metrics V1_DATA s e true).producers
        = (getValueAtDate V1_DATA e).producers
          - (getValueAtDate V1_DATA (s - 1)).producers) ∧
    ((get_v1_metrics V1_DATA s e1 true).total_users
        ≤ (get_v1_metrics V1_DATA s e2 true).total_users ∧
     (get_v1_metrics V1_DATA s e1 true).active_users
        ≤ (get_v1_metrics V1_DATA s e2 true).active_users ∧
     (get_v1_metrics V1_DATA s e1 true).producers
        ≤ (get_v1_metrics V1_DATA s e2 true).producers) := by
  refine ⟨gvm_fields s e, ?_, ?_, ?_⟩
  · rw [(gvm_fields s e1).1, (gvm_fields s e2).1]
    exact sub_le_sub_right (gvad_mono e1 e2 h12).1 _
  · rw [(gvm_fields s e1).2.1, (gvm_fields s e2).2.1]
    exact sub_le_sub_right (gvad_mono e1 e2 h12).2.1 _
  · rw [(gvm_fields s e1).2.2, (gvm_fields s e2).2.2]
    exact sub_le_sub_right (gvad_mono e1 e2 h12).2.2 _

theorem c5_delta_over_witness :
    (get_v1_metrics V1_DATA 1 2 true).total_users
      ≤ (get_v1_metrics V1_DATA 1 3 true).total_users :=
  ((c5_delta_over 1 5 2 3 (by norm_num) (by norm_num) (by norm_num) (by norm_num)).2).1

/-! ### Event-store retry wrapper (opensearch_service.py / base.py)

`op n` is the outcome the Event Store would give to the n-th invocation of
the wrapped operation (0-based); the loop of `_execute_with_retry` walks
`range(max_retries)` with `max_retries = 3`, `base_delay = 1`.
-/

/-- Outcome of one attempted Event Store call: success, a transient
ConnectionError/TransportError, NotFoundError, or RequestError (invalid
query).  In opensearchpy, NotFoundError and RequestError are subclasses of
TransportError (and ConnectionError is one as well). -/
inductive StoreResult (α : Type) where
  | ok (value : α)
  | transientErr
  | notFound
  | invalidQuery
deriving DecidableEq

/-- Trace of `_execute_with_retry`: final outcome, number of operation
invocations performed, and the backoff delays slept (in seconds). -/
structure RetryTrace (α : Type) where
  result : StoreResult α
  attempts : ℕ
  delays : List ℕ
deriving DecidableEq

/-- The loop of `opensearch_service.py` `_execute_with_retry` (lines 69-78):
the `except (ConnectionError, TransportError)` clause catches every error
outcome — NotFoundError and RequestError subclass TransportError in
opensearchpy — so each error kind is retried after
`base_delay * 2 ** attempt` seconds, except on the final attempt where it
propagates unchanged; `fuel` counts the remaining iterations of
`range(max_retries)`. -/
def retryLoop {α : Type} (op : ℕ → StoreResult α) (base : ℕ) :
    ℕ → ℕ → List ℕ → RetryTrace α
  | attempt, 0, delays => ⟨.transientErr, attempt, delays⟩
  | attempt, fuel + 1, delays =>
    match op attempt with
    | .ok v => ⟨.ok v, attempt + 1, delays⟩
    | .transientErr =>
      if fuel = 0 then ⟨.transientErr, attempt + 1, delays⟩
      else retryLoop op base (attempt + 1) fuel (delays ++ [base * 2 ^ attempt])
    | .notFound =>
      if fuel = 0 then ⟨.notFound, attempt + 1, delays⟩
      else retryLoop op base (attempt + 1) fuel (delays ++ [base * 2 ^ attempt])
    | .invalidQuery =>
      if fuel = 0 then ⟨.invalidQuery, attempt + 1, delays⟩
      else retryLoop op base (attempt + 1) fuel (delays ++ [base * 2 ^ attempt])

/-- `_execute_with_retry` with the configured `max_retries = 3`,
`base_delay = 1` (opensearch_service.py lines 23-24). -/
def execute_with_retry {α : Type} (op : ℕ → StoreResult α) : RetryTrace α :=
  retryLoop op 1 0 3 []

/-- OpenSearch aggregation payload as read by `base.py`: optional
`unique_users` count, `users` buckets and `thread_count` buckets
(bucket = key × doc_count). -/
structure OSAggregations where
  unique_users : Option ℤ
  users_buckets : Option (List (String × ℤ))
  thread_count_buckets : Option (List (String × ℤ))
deriving DecidableEq

/-- From `base.py` `_get_empty_result` (lines 128-136). -/
def get_empty_result : OSAggregations := ⟨some 0, some [], some []⟩

/-- From `base.py` `_execute_opensearch_query` (lines 42-57) composed with
the retried `search` of `opensearch_service.py`: a successful result is
returned unchanged; whatever error propagates out of the retry wrapper
(NotFoundError, RequestError or a transient error surviving all attempts)
is caught and degrades to the empty (all-zero) result for this single
query only. -/
def execute_opensearch_query (op : ℕ → StoreResult OSAggregations) : OSAggregations :=
  match (execute_with_retry op).result with
  | .ok v => v
  | _ => get_empty_result

/-- Claim C6 counterexample: NotFound and InvalidQuery do not fail on the
first attempt — the `except (ConnectionError, TransportError)` clause
catches them because both subclass TransportError in opensearchpy.  A
NotFound on attempt 1 is retried after a 1 s delay and a succeeding second
attempt returns the success payload (two invocations, not one); a
persistent InvalidQuery consumes all three attempts and the 1 s + 2 s
backoff before it propagates. -/
theorem c6_counterexample :
    execute_with_retry
        (fun n => if n = 0 then StoreResult.notFound
                  else .ok (⟨some 7, some [], none⟩ : OSAggregations))
      = ⟨.ok ⟨some 7, some [], none⟩, 2, [1]⟩ ∧
    execute_with_retry (fun _ => (StoreResult.invalidQuery : StoreResult OSAggregations))
      = ⟨.invalidQuery, 3, [1, 2]⟩ := by
  constructor
  · simp [execute_with_retry, retryLoop]
  · simp [execute_with_retry, retryLoop]

/-- Claim C6 (amended): every Event Store call is retried with exponential
backoff — at most 3 attempts, 1 s then 2 s of delay — but the retry is not
limited to transient errors: NotFoundError and RequestError subclass
TransportError in opensearchpy, so the `except (ConnectionError,
TransportError)` clause retries them identically instead of failing on the
first attempt.  Whichever error survives the third attempt (of any kind)
degrades only the single affected query to the empty zero-count result;
two transient failures followed by a success return the success-path
result after the 1 s + 2 s backoff. -/
theorem c6_retry_backoff (op : ℕ → StoreResult OSAggregations) (v : OSAggregations) :
    (execute_with_retry op).attempts ≤ 3 ∧
    (op 0 = .transientErr → op 1 = .transientErr → op 2 = .ok v →
      execute_with_retry op = ⟨.ok v, 3, [1, 2]⟩ ∧
      (execute_with_retry op).result = (execute_with_retry (fun _ => .ok v)).result) ∧
    (op 0 = .transientErr → op 1 = .ok v → execute_with_retry op = ⟨.ok v, 2, [1]⟩) ∧
    (op 0 = .notFound → op 1 = .ok v → execute_with_retry op = ⟨.ok v, 2, [1]⟩) ∧
    (op 0 = .invalidQuery → op 1 = .ok v → execute_with_retry op = ⟨.ok v, 2, [1]⟩) ∧
    (op 0 = .notFound → op 1 = .notFound → op 2 = .notFound →
      execute_with_retry op = ⟨.notFound, 3, [1, 2]⟩ ∧
      execute_opensearch_query op = get_empty_result ∧
      get_empty_result.unique_users = some 0) ∧
    (op 0 = .invalidQuery → op 1 = .invalidQuery → op 2 = .invalidQuery →
      execute_with_retry op = ⟨.invalidQuery, 3, [1, 2]⟩ ∧
      execute_opensearch_query op = get_empty_result) := by
  refine ⟨?_, ?_, ?_, ?_, ?_, ?_, ?_⟩
  · rcases h0 : op 0 with v0 | _ | _ | _ <;>
      rcases h1 : op 1 with v1 | _ | _ | _ <;>
        rcases h2 : op 2 with v2 | _ | _ | _ <;>
          simp [execute_with_retry, retryLoop, h0, h1, h2]
  · intro h0 h1 h2
    constructor
    · simp [execute_with_retry, retryLoop, h0, h1, h2]
    · simp [execute_with_retry, retryLoop, h0, h1, h2]
  · intro h0 h1
    simp [execute_with_retry, retryLoop, h0, h1]
  · intro h0 h1
    simp [execute_with_retry, retryLoop, h0, h1]
  · intro h0 h1
    simp [execute_with_retry, retryLoop, h0, h1]
  · intro h0 h1 h2
    refine ⟨by simp [execute_with_retry, retryLoop, h0, h1, h2], ?_, rfl⟩
    simp [execute_opensearch_query, execute_with_retry, retryLoop, h0, h1, h2]
  · intro h0 h1 h2
    refine ⟨by simp [execute_with_retry, retryLoop, h0, h1, h2], ?_⟩
    simp [execute_opensearch_query, execute_with_retry, retryLoop, h0, h1, h2]

theorem c6_retry_backoff_witness :
    execute_with_retry
        (fun n => if n < 2 then StoreResult.transientErr
                  else .ok (⟨some 7, some [], none⟩ : OSAggregations))
      = ⟨.ok ⟨some 7, some [], none⟩, 3, [1, 2]⟩ :=
  ((c6_retry_backoff
      (fun n => if n < 2 then StoreResult.transientErr
                else .ok (⟨some 7, some [], none⟩ : OSAggregations))
      ⟨some 7, some [], none⟩).2.1 rfl rfl rfl).1

/-! ### Cache layer (caching_service.py `CachingService`)

The Redis transport is modelled as a key/value store with per-entry expiry
instants; `getFail`/`setFail` flag a transport failure inside the
corresponding call (the source catches it and degrades).  JSON
serialization round-trips the stored payload unchanged for the JSON-safe
dict payloads this service stores. -/

/-- Cache contents (key, payload, expiry instant in seconds) plus the
current clock. -/
structure CacheState (α : Type) where
  entries : List (String × α × ℤ)
  now : ℤ

/-- From `caching_service.py` `get` (lines 23-33): a transport failure is
caught and returns None; otherwise the stored, unexpired payload. -/
def cache_get {α : Type} (fail : Bool) (st : CacheState α) (key : String) : Option α :=
  if fail then none
  else
    match st.entries.find? (fun e => e.1 == key) with
    | some e => if st.now < e.2.2 then some e.2.1 else none
    | none => none

/-- From `caching_service.py` `set` (lines 35-49): store under the key with
expiry `now + ttl` (Redis SET with EX replaces any previous entry),
returning False — with the state unchanged — on transport failure. -/
def cache_set {α : Type} (fail : Bool) (st : CacheState α) (key : String) (v : α)
    (ttl : ℤ) : CacheState α × Bool :=
  if fail then (st, false)
  else (⟨(key, v, st.now + ttl) :: st.entries.filter (fun e => ¬(e.1 == key)), st.now⟩, true)

/-- Result of `get_or_set`: the returned payload, the cache state after the
call, and whether `value_func` was invoked. -/
structure GetOrSetOutcome (α : Type) where
  result : α
  state : CacheState α
  computeInvoked : Bool

/-- From `caching_service.py` `get_or_set` (lines 71-79): return the cached
payload on a hit; otherwise invoke `value_func`, attempt to store the
computed payload (ignoring the success flag), and return it.  The default
TTL is 5 minutes (300 s). -/
def get_or_set {α : Type} (getFail setFail : Bool) (st : CacheState α) (key : String)
    (value_func : α) (ttl : ℤ) : GetOrSetOutcome α :=
  match cache_get getFail st key with
  | some v => ⟨v, st, false⟩
  | none => ⟨value_func, (cache_set setFail st key value_func ttl).1, true⟩

/-- The passage of `d` seconds between two calls. -/
def advance {α : Type} (st : CacheState α) (d : ℤ) : CacheState α :=
  ⟨st.entries, st.now + d⟩

/-- Claim C7: after a fault-free miss-and-store, a second `get_or_set` for
the same key within the TTL returns the identical cached payload without
invoking its compute function (even a different one); a failing cache read
degrades to direct computation, as does a failing store on a miss; and
every call returns either the computed payload or a previously cached
one — a cache failure is never surfaced as a request failure. -/
theorem c7_cache_idempotence {α : Type} (st : CacheState α) (key : String)
    (v v2 : α) (ttl d : ℤ) (hmiss : cache_get false st key = none)
    (hd : 0 ≤ d) (hdttl : d < ttl) :
    (get_or_set false false st key v ttl).result = v ∧
    (get_or_set false false st key v ttl).computeInvoked = true ∧
    (get_or_set false false
        (advance (get_or_set false false st key v ttl).state d) key v2 ttl).result = v ∧
    (get_or_set false false
        (advance (get_or_set false false st key v ttl).state d) key v2 ttl).computeInvoked
      = false ∧
    (∀ sf : Bool, ∀ st' : CacheState α, ∀ w : α,
      (get_or_set true sf st' key w ttl).result = w) ∧
    (∀ st' : CacheState α, ∀ w : α, cache_get false st' key = none →
      (get_or_set false true st' key w ttl).result = w) ∧
    (∀ gf sf : Bool, ∀ st' : CacheState α, ∀ w : α,
      (get_or_set gf sf st' key w ttl).result = w ∨
      cache_get gf st' key = some ((get_or_set gf sf st' key w ttl).result)) := by
  have hhit : cache_get false
      (advance (get_or_set false false st key v ttl).state d) key = some v := by
    rw [get_or_set, hmiss]
    simp only [cache_set, advance, cache_get, if_neg Bool.false_ne_true,
      List.find?, beq_self_eq_true]
    rw [if_pos (by omega)]
  refine ⟨?_, ?_, ?_, ?_, ?_, ?_, ?_⟩
  · rw [get_or_set, hmiss]
  · rw [get_or_set, hmiss]
  · rw [get_or_set, hhit]
  · rw [get_or_set, hhit]
  · intro sf st' w
    have hg : cache_get true st' key = none := by rw [cache_get, if_pos rfl]
    rw [get_or_set, hg]
  · intro st' w hm
    rw [get_or_set, hm]
  · intro gf sf st' w
    rcases hg : cache_get gf st' key with _ | u
    · left
      rw [get_or_set, hg]
    · right
      rw [get_or_set, hg]

theorem c7_cache_idempotence_witness :
    (get_or_set false false (⟨[], 0⟩ : CacheState ℤ) "dashboard_metrics" 42 300).result
        = 42 ∧
    (get_or_set false false
        (advance (get_or_set false false (⟨[], 0⟩ : CacheState ℤ)
          "dashboard_metrics" 42 300).state 100) "dashboard_metrics" 99 300).result = 42 ∧
    (get_or_set false false
        (advance (get_or_set false false (⟨[], 0⟩ : CacheState ℤ)
          "dashboard_metrics" 42 300).state 100) "dashboard_metrics" 99 300).computeInvoked
      = false := by
  have h := c7_cache_idempotence (⟨[], 0⟩ : CacheState ℤ) "dashboard_metrics" 42 99 300 100
    rfl (by norm_num) (by norm_num)
  exact ⟨h.1, h.2.2.1, h.2.2.2.1⟩

/-! ### Dashboard aggregation (analytics_service.py `get_dashboard_metrics`)

Each of the seven live fetchers (`_get_total_users`, `_get_thread_users`,
`_get_sketch_users`, `_get_render_users`, `_get_medium_chat_users`,
`_get_power_users`, `_get_producers`) catches its own exceptions and
returns a zero metric, so the aggregator list is always complete.  `srcs k`
is the outcome of fetcher `k` in fetch order: 0 total, 1 thread, 2 sketch,
3 render, 4 medium, 5 power, 6 producers. -/

/-- The data payload of one dashboard metric. -/
structure MetricData where
  value : ℤ
  previousValue : ℤ
  trend : String
  changePercentage : ℚ
deriving DecidableEq

/-- The error payload each fetcher returns from its `except` handler. -/
def zero_metric : MetricData := ⟨0, 0, "neutral", 0⟩

/-- The success path shared by the seven fetchers: a simulated previous
value `int(count * 0.9)`, trend "up"/"down", percentage rounded to two
decimals (zero when the simulated previous value is zero). -/
def metric_from_count (count : ℤ) : MetricData :=
  let previous_count := intTrunc ((count : ℚ) * (9 / 10))
  { value := count
    previousValue := previous_count
    trend := if count > previous_count then "up" else "down"
    changePercentage :=
      round2 (if previous_count > 0
              then ((count : ℚ) - (previous_count : ℚ)) / (previous_count : ℚ) * 100
              else 0) }

/-- One fetcher: the success-path metric, or the zero metric from the
fetcher-local `except` handler. -/
def fetch_metric (src : Except Unit ℤ) : MetricData :=
  match src with
  | .ok count => metric_from_count count
  | .error _ => zero_metric

/-- One entry of the dashboard metric list. -/
structure MetricEntry where
  id : String
  name : String
  description : String
  category : String
  interval : String
  data : MetricData
deriving DecidableEq

/-- The response of `get_dashboard_metrics`. -/
structure DashboardResponse where
  metrics : List MetricEntry
  timeRangeStart : ℤ
  timeRangeEnd : ℤ
deriving DecidableEq

/-- From `analytics_service.py` `get_dashboard_metrics` (lines 55-173):
fetch the seven metrics (each failing soft to zero), add the historical
baseline deltas to total/thread/producers when `include_v1`, and assemble
the fixed seven-entry list. -/
def get_dashboard_metrics (start_day end_day : ℤ) (include_v1 : Bool)
    (srcs : Fin 7 → Except Unit ℤ) : DashboardResponse :=
  let total_users := fetch_metric (srcs 0)
  let thread_users := fetch_metric (srcs 1)
  let sketch_users := fetch_metric (srcs 2)
  let render_users := fetch_metric (srcs 3)
  let medium_users := fetch_metric (srcs 4)
  let power_users := fetch_metric (srcs 5)
  let producers := fetch_metric (srcs 6)
  let v1_data := get_v1_metrics V1_DATA start_day end_day include_v1
  let total_users := if include_v1
    then { total_users with value := total_users.value + v1_data.total_users }
    else total_users
  let thread_users := if include_v1
    then { thread_users with value := thread_users.value + v1_data.active_users }
    else thread_users
  let producers := if include_v1
    then { producers with value := producers.value + v1_data.producers }
    else producers
  { metrics :=
      [⟨"descope_users", "Total Users", "Total number of registered users",
        "user", "daily", total_users⟩,
       ⟨"thread_users", "Thread Users",
        "Users who have started at least one message thread",
        "engagement", "daily", thread_users⟩,
       ⟨"render_users", "Render Users", "Users who have completed at least one render",
        "performance", "daily", render_users⟩,
       ⟨"active_chat_users", "Power Users", "Users with more than 20 message threads",
        "engagement", "daily", power_users⟩,
       ⟨"medium_chat_users", "Medium Activity Users", "Users with 5-20 message threads",
        "engagement", "daily", medium_users⟩,
       ⟨"sketch_users", "Sketch Users", "Users who have uploaded at least one sketch",
        "performance", "daily", sketch_users⟩,
       ⟨"producers", "Producers", "Total number of producers", "user", "daily", producers⟩]
    timeRangeStart := start_day
    timeRangeEnd := end_day }

/-- Claim C8: the aggregator always returns the complete seven-entry metric
list with the fixed ids, for every combination of source failures; each
entry is a function of its own source alone (so one failed source never
disturbs the rest), a failed source contributes exactly the zero metric,
and with `include_v1` the three blended entries add the historical deltas
on top of whatever the live source (or its zero fallback) produced. -/
theorem c8_dashboard_complete (start_day end_day : ℤ) (include_v1 : Bool)
    (srcs : Fin 7 → Except Unit ℤ) :
    ((get_dashboard_metrics start_day end_day include_v1 srcs).metrics.map
        (fun m => m.id))
      = ["descope_users", "thread_users", "render_users", "active_chat_users",
         "medium_chat_users", "sketch_users", "producers"] ∧
    (get_dashboard_metrics start_day end_day include_v1 srcs).metrics.length = 7 ∧
    ((get_dashboard_metrics start_day end_day false srcs).metrics.map (fun m => m.data)
      = [fetch_metric (srcs 0), fetch_metric (srcs 1), fetch_metric (srcs 3),
         fetch_metric (srcs 5), fetch_metric (srcs 4), fetch_metric (srcs 2),
         fetch_metric (srcs 6)]) ∧
    (∀ k : Fin 7, srcs k = .error () → fetch_metric (srcs k) = zero_metric) ∧
    ((get_dashboard_metrics start_day end_day true srcs).metrics.map (fun m => m.data)
      = [{ fetch_metric (srcs 0) with
            value := (fetch_metric (srcs 0)).value
              + (get_v1_metrics V1_DATA start_day end_day true).total_users },
         { fetch_metric (srcs 1) with
            value := (fetch_metric (srcs 1)).value
              + (get_v1_metrics V1_DATA start_day end_day true).active_users },
         fetch_metric (srcs 3), fetch_metric (srcs 5), fetch_metric (srcs 4),
         fetch_metric (srcs 2),
         { fetch_metric (srcs 6) with
            value := (fetch_metric (srcs 6)).value
              + (get_v1_metrics V1_DATA start_day end_day true).producers }]) := by
  refine ⟨?_, ?_, rfl, ?_, rfl⟩
  · cases include_v1 <;> rfl
  · cases include_v1 <;> rfl
  · intro k hk
    rw [hk]
    rfl

theorem c8_dashboard_complete_witness :
    ((get_dashboard_metrics 0 10 false
        (fun k => if k = 0 then Except.error () else Except.ok 10)).metrics.map
        (fun m => m.id))
      = ["descope_users", "thread_users", "render_users", "active_chat_users",
         "medium_chat_users", "sketch_users", "producers"] ∧
    fetch_metric ((fun (k : Fin 7) => if k = 0 then Except.error () else Except.ok 10)
        (0 : Fin 7)) = zero_metric := by
  have h := c8_dashboard_complete 0 10 false
    (fun k => if k = 0 then Except.error () else Except.ok 10)
  exact ⟨h.1, h.2.2.2.1 0 rfl⟩

/-! ### Historical/live blending (backup analytics service `merge_metrics`)

The two fixed transition dates of `merge_metrics` are 2025-01-26
(`historical_end`, day 117) and 2025-01-20 (`opensearch_start`, day 111).
The historical service and the live store are modelled as oracles: `hist`
holds the fields `merge_metrics` reads from the historical result for
[start, min(end, historical_end)], `os` the live counts for
[max(start, opensearch_start), end]. -/

/-- Day number of the cutover date 2025-01-26. -/
def historical_end : ℤ := 117

/-- Day number of the live-coverage start 2025-01-20. -/
def opensearch_start : ℤ := 111

/-- The fields `merge_metrics` reads from the historical-service result. -/
structure HistSource where
  total_users : ℤ
  new_users : ℤ
  active_users : ℤ
  producers : ℤ
  daily_total_users : ℚ
  daily_new_users : ℚ
  daily_active_users : ℚ
  daily_producers : ℚ

/-- The counts `opensearch_service.get_metrics` returns for the live
window. -/
structure OSCounts where
  thread_users_count : ℤ
  producers_count : ℤ

/-- The metrics dict assembled by `merge_metrics`. -/
structure MergedMetrics where
  total_users : ℤ
  new_users : ℤ
  thread_users_count : ℤ
  render_users : ℤ
  producers_count : ℤ
  daily_total_users : ℚ
  daily_new_users : ℚ
  daily_thread_users : ℚ
  daily_render_users : ℚ
  daily_producers : ℚ
deriving DecidableEq

/-- From `backup/analytics_service copy.py` `merge_metrics` (lines 424-519):
zero-initialized dict; historical update when the window reaches the
historical era; in the overlap branch the two both-source counts take the
max of the two sources while the daily rates take an `int()`-truncated
weighted combination whose weights span start→cutover and liveStart→end;
a recent end date finally overwrites the user totals from the directory. -/
def merge_metrics (start_day end_day : ℤ) (hist : HistSource) (os : OSCounts)
    (now_day descope_total descope_new : ℤ) : MergedMetrics :=
  let m : MergedMetrics := ⟨0, 0, 0, 0, 0, 0, 0, 0, 0, 0⟩
  let m := if start_day ≤ historical_end then
      { m with
        total_users := hist.total_users
        new_users := hist.new_users
        thread_users_count := hist.active_users
        producers_count := hist.producers
        daily_total_users := hist.daily_total_users
        daily_new_users := hist.daily_new_users
        daily_thread_users := hist.daily_active_users
        daily_producers := hist.daily_producers }
    else m
  let m := if opensearch_start ≤ end_day then
      (if start_day ≤ historical_end ∧ opensearch_start ≤ end_day then
        let historical_weight := (historical_end - start_day) + 1
        let opensearch_weight := (end_day - opensearch_start) + 1
        let total_weight := historical_weight + opensearch_weight
        { m with
          thread_users_count := max m.thread_users_count os.thread_users_count
          producers_count := max m.producers_count os.producers_count
          daily_thread_users := ((intTrunc ((m.daily_thread_users * (historical_weight : ℚ)
            + ((os.thread_users_count : ℚ) / (opensearch_weight : ℚ))
              * (opensearch_weight : ℚ)) / (total_weight : ℚ))) : ℚ)
          daily_producers := ((intTrunc ((m.daily_producers * (historical_weight : ℚ)
            + ((os.producers_count : ℚ) / (opensearch_weight : ℚ))
              * (opensearch_weight : ℚ)) / (total_weight : ℚ))) : ℚ) }
      else if historical_end < start_day then
        let days_in_range := (end_day - start_day) + 1
        { m with
          thread_users_count := os.thread_users_count
          producers_count := os.producers_count
          daily_thread_users :=
            ((intTrunc ((os.thread_users_count : ℚ) / (days_in_range : ℚ))) : ℚ)
          daily_producers :=
            ((intTrunc ((os.producers_count : ℚ) / (days_in_range : ℚ))) : ℚ) }
      else m)
    else m
  let m := if now_day - 1 ≤ end_day then
      { m with
        total_users := descope_total
        new_users := descope_new }
    else m
  m

/-- The merged daily thread rate the claim asserts: the day-weighted average
of the two sources' daily rates, weighted by the historical day count
|[start, min(end, cutover)]| and the live day count
|[max(start, liveStart), end]|. -/
def spec_daily_thread (start_day end_day : ℤ) (hist : HistSource) (os : OSCounts) : ℚ :=
  let hist_days := (min end_day historical_end - start_day) + 1
  let live_days := (end_day - max start_day opensearch_start) + 1
  (hist.daily_active_users * (hist_days : ℚ)
    + ((os.thread_users_count : ℚ) / (live_days : ℚ)) * (live_days : ℚ))
    / ((hist_days : ℚ) + (live_days : ℚ))

/-- Historical oracle with daily thread rate 10 (all other fields 0). -/
def c1_hist_a : HistSource := ⟨0, 0, 0, 0, 0, 0, 10, 0⟩

/-- Live oracle with 220 thread users. -/
def c1_os_a : OSCounts := ⟨220, 0⟩

/-- Historical oracle with daily thread rate 1. -/
def c1_hist_b : HistSource := ⟨0, 0, 0, 0, 0, 0, 1, 0⟩

/-- Live oracle with 2 thread users. -/
def c1_os_b : OSCounts := ⟨2, 0⟩

/-- Claim C1 counterexample: the merged daily-average figure does not equal
the day-weighted average of the two sources' daily rates.  For the window
days 113..132 (2025-01-22 to 2025-02-10) the code weighs the live rate
over 22 days (liveStart→end) although the live day count is 20, yielding
10 against the claimed 10.8; for the window days 105..132 the weights
agree but the code truncates 3/7 down to 0. -/
theorem c1_counterexample :
    (merge_metrics 113 132 c1_hist_a c1_os_a 1000 0 0).daily_thread_users = 10 ∧
    spec_daily_thread 113 132 c1_hist_a c1_os_a = 54 / 5 ∧
    (merge_metrics 113 132 c1_hist_a c1_os_a 1000 0 0).daily_thread_users
      ≠ spec_daily_thread 113 132 c1_hist_a c1_os_a ∧
    (merge_metrics 105 132 c1_hist_b c1_os_b 1000 0 0).daily_thread_users = 0 ∧
    spec_daily_thread 105 132 c1_hist_b c1_os_b = 3 / 7 ∧
    (merge_metrics 105 132 c1_hist_b c1_os_b 1000 0 0).daily_thread_users
      ≠ spec_daily_thread 105 132 c1_hist_b c1_os_b := by
  norm_num [merge_metrics, spec_daily_thread, historical_end, opensearch_start,
    c1_hist_a, c1_os_a, c1_hist_b, c1_os_b, intTrunc]

/-- Claim C1 (amended): for every window spanning both eras
(start ≤ cutover and end ≥ liveStart) the merged counts of the two
both-source metrics equal the maximum — not the sum — of the historical
value (over [start, min(end, cutover)]) and the live value (over
[max(start, liveStart), end]); the merged daily-average figures equal the
integer truncation of the weighted combination whose weights are
(cutover − start + 1) and (end − liveStart + 1) — these coincide with the
two day counts only when the window covers the whole overlap from both
sides. -/
theorem intTrunc_congr (a b : ℚ) (h : a = b) :
    ((intTrunc a : ℤ) : ℚ) = ((intTrunc b : ℤ) : ℚ) := by rw [h]

theorem c1_blended_merge (start_day end_day : ℤ) (hist : HistSource) (os : OSCounts)
    (now_day descope_total descope_new : ℤ)
    (hs : start_day ≤ historical_end) (he : opensearch_start ≤ end_day) :
    (merge_metrics start_day end_day hist os now_day descope_total
        descope_new).thread_users_count
      = max hist.active_users os.thread_users_count ∧
    (merge_metrics start_day end_day hist os now_day descope_total
        descope_new).producers_count
      = max hist.producers os.producers_count ∧
    (merge_metrics start_day end_day hist os now_day descope_total
        descope_new).daily_thread_users
      = ((intTrunc ((hist.daily_active_users * (((historical_end - start_day) + 1 : ℤ) : ℚ)
          + (os.thread_users_count : ℚ))
          / ((((historical_end - start_day) + 1 : ℤ) : ℚ)
            + (((end_day - opensearch_start) + 1 : ℤ) : ℚ)))) : ℚ) ∧
    (merge_metrics start_day end_day hist os now_day descope_total
        descope_new).daily_producers
      = ((intTrunc ((hist.daily_producers * (((historical_end - start_day) + 1 : ℤ) : ℚ)
          + (os.producers_count : ℚ))
          / ((((historical_end - start_day) + 1 : ℤ) : ℚ)
            + (((end_day - opensearch_start) + 1 : ℤ) : ℚ)))) : ℚ) := by
  have how : (((end_day - opensearch_start) + 1 : ℤ) : ℚ) ≠ 0 := by
    have h : (0 : ℤ) < (end_day - opensearch_start) + 1 := by
      simp only [opensearch_start] at he ⊢
      omega
    exact_mod_cast ne_of_gt (by exact_mod_cast h : (0 : ℚ) < (((end_day - opensearch_start) + 1 : ℤ) : ℚ))
  simp only [merge_metrics, if_pos hs, if_pos he, if_pos (And.intro hs he)]
  split_ifs with hnow <;>
    exact ⟨rfl, rfl,
      intTrunc_congr _ _ (by rw [div_mul_cancel₀ _ how] ; push_cast ; ring),
      intTrunc_congr _ _ (by rw [div_mul_cancel₀ _ how] ; push_cast ; ring)⟩


theorem c1_blended_merge_witness :
    (merge_metrics 113 132 c1_hist_b c1_os_b 1000 5 6).thread_users_count
      = max c1_hist_b.active_users c1_os_b.thread_users_count ∧
    (merge_metrics 113 132 c1_hist_b c1_os_b 1000 5 6).producers_count
      = max c1_hist_b.producers c1_os_b.producers_count := by
  have h := c1_blended_merge 113 132 c1_hist_b c1_os_b 1000 5 6
    (by norm_num [historical_end]) (by norm_num [opensearch_start])
  exact ⟨h.1, h.2.1⟩

end Dashboard





